import Mathlib

/-!
Verification of the Baby RAG retrieval system.

The glue code (result formatting, input validation, error propagation,
HTTP rounding) is embedded directly from `rag_system.py`, `rag_api.py`
and `rag_mcp_server.py`.  The retrieval engine itself (vector similarity,
ranking, clamped top-k) lives behind the external chromadb collection and
is modelled from the specification: cosine similarity scored against every
document, results ordered by descending similarity with corpus insertion
order as the tie-break, and `n_results` clamped to the corpus size.
-/

/-- A corpus record as loaded from `data/snippets.json`:
`id`, `title` and `content` fields. -/
structure Snippet where
  id : String
  title : String
  content : String
deriving Repr, DecidableEq

/-- The canonical searchable text, from `rag_system.py` line 72:
the f-string producing `title ++ ": " ++ content`. -/
def searchableText (s : Snippet) : String :=
  s.title ++ ": " ++ s.content

/-- The state of a chroma collection after `_add_snippets_to_collection`
(`rag_system.py` lines 64-86): parallel lists of documents (searchable
texts), titles, and ids. -/
structure Collection where
  docs : List String
  titles : List String
  ids : List String
deriving Repr, DecidableEq

/-- `_add_snippets_to_collection` (`rag_system.py` lines 64-86): for each
snippet, the stored document is the title-prefixed full text, the metadata
keeps the title, and the id is the snippet id. -/
def addSnippetsToCollection (snippets : List Snippet) : Collection :=
  { docs := snippets.map searchableText
    titles := snippets.map Snippet.title
    ids := snippets.map Snippet.id }

/-- Ranking order used by the retrieval engine: `a` strictly precedes `b`
when `a` has higher similarity, or equal similarity and lower corpus
index. -/
def lexR (a b : Nat × ℚ) : Prop :=
  b.2 < a.2 ∨ (a.2 = b.2 ∧ a.1 < b.1)

instance : DecidableRel lexR := fun a b => by
  unfold lexR; infer_instance

/-- Stable insertion of an indexed similarity into a ranked list: the new
element goes before the first element whose similarity it reaches
(so among equal similarities, the earlier-inserted element stays first). -/
def insertRanked (x : Nat × ℚ) : List (Nat × ℚ) → List (Nat × ℚ)
  | [] => [x]
  | y :: ys => if y.2 ≤ x.2 then x :: y :: ys else y :: insertRanked x ys

/-- Stable ranking of the similarity list: pairs every similarity with its
corpus index (starting at `i`) and sorts by descending similarity, corpus
order breaking ties. -/
def rankAux (i : Nat) : List ℚ → List (Nat × ℚ)
  | [] => []
  | s :: ss => insertRanked (i, s) (rankAux (i + 1) ss)

/-- Shape of the chroma query answer consumed by `BabyRAGSystem.query`
(`rag_system.py` lines 102-113): parallel lists of ids, documents,
metadata pairs (title, id), and distances. -/
structure ChromaQueryResult where
  ids : List String
  documents : List String
  metadatas : List (String × String)
  distances : List ℚ
deriving Repr, DecidableEq

/-- Modelled from the spec: `collection.query` of the external chromadb
collection (the retrieval engine is not part of the repository's own
sources).  Given the similarity of the query against every document
(`sims`, one entry per corpus row), it returns the `min n_results n`
best-ranked documents — `n_results` clamped to the corpus size — ordered
by descending similarity with corpus insertion order breaking ties, and
reports `distance = 1 - similarity` for each. -/
def Collection.query (c : Collection) (sims : List ℚ) (n_results : Nat) :
    ChromaQueryResult :=
  let ranked := (rankAux 0 sims).take (min n_results c.docs.length)
  { ids := ranked.map fun p => c.ids.getD p.1 ""
    documents := ranked.map fun p => c.docs.getD p.1 ""
    metadatas := ranked.map fun p => (c.titles.getD p.1 "", c.ids.getD p.1 "")
    distances := ranked.map fun p => 1 - p.2 }

/-- One formatted result of `BabyRAGSystem.query`
(`rag_system.py` lines 118-124). -/
structure QueryResult where
  id : String
  title : String
  content : String
  similarity_score : ℚ
  distance : ℚ
deriving Repr, DecidableEq

namespace BabyRAGSystem

/-- `BabyRAGSystem.query` (`rag_system.py` lines 88-126): queries the
collection, then formats each raw result: reads the id, document, metadata
and distance at position `i`, computes `similarity_score = 1 - distance`,
and emits the record. -/
def query (c : Collection) (sims : List ℚ) (n_results : Nat) :
    List QueryResult :=
  let results := c.query sims n_results
  (List.range results.documents.length).map fun i =>
    let doc_id := results.ids.getD i ""
    let document := results.documents.getD i ""
    let metadata := results.metadatas.getD i ("", "")
    let distance := results.distances.getD i 0
    let similarity_score := 1 - distance
    { id := doc_id
      title := metadata.1
      content := document
      similarity_score := similarity_score
      distance := distance }

end BabyRAGSystem

/-- Modelled from the spec: the cosine similarity computed inside the
external vector stack, `(q·d)/(‖q‖·‖d‖)`, equal to `0` when either norm
is zero (in Lean, division by zero yields zero). -/
noncomputable def cosineSim {d : Nat} (q v : Fin d → ℝ) : ℝ :=
  (∑ i, q i * v i) /
    (Real.sqrt (∑ i, q i ^ 2) * Real.sqrt (∑ i, v i ^ 2))

/-- Errors surfaced by the system: the two exceptions re-raised by
`_load_data` (`rag_system.py` lines 40-45) and the `ValueError` /
`HTTPException 400` raised by the transport wrappers on invalid input. -/
inductive RagError where
  | fileNotFound
  | jsonDecodeError
  | invalidQuery (msg : String)
deriving Repr, DecidableEq

/-- The possible conditions of the corpus file at `data_path`: absent,
present but not valid JSON, or a valid JSON list of snippets. -/
inductive CorpusSource where
  | missing
  | malformed
  | ok (snippets : List Snippet)
deriving Repr, DecidableEq

/-- `_load_data` (`rag_system.py` lines 34-45): reads the snippets,
re-raising `FileNotFoundError` when the file is absent and
`json.JSONDecodeError` when its contents are not valid JSON. -/
def loadData : CorpusSource → Except RagError (List Snippet)
  | .missing => .error .fileNotFound
  | .malformed => .error .jsonDecodeError
  | .ok snippets => .ok snippets

/-- The fields of an initialized `BabyRAGSystem`
(`rag_system.py` lines 9-32) that the claims observe: the loaded
snippets and the populated collection. -/
structure BabyRAGSystemState where
  snippets : List Snippet
  collection : Collection
deriving Repr, DecidableEq

/-- `BabyRAGSystem.__init__` (`rag_system.py` lines 9-32): runs
`_load_data` first; only if it succeeds does `_create_collection` build
and populate the collection.  An exception from `_load_data` propagates
out of the constructor, so no instance — and no collection — is ever
produced from a missing or malformed corpus. -/
def initSystem (src : CorpusSource) : Except RagError BabyRAGSystemState :=
  match loadData src with
  | .error e => .error e
  | .ok snippets =>
      .ok { snippets := snippets
            collection := addSnippetsToCollection snippets }

namespace BabyRAGSystem

/-- Modelled from the spec: the `collection_size` accessor read by
`rag_api.py` (lines 82, 139) — its definition is absent from
`src/rag_system.py`, only its callers are present.  Per the spec's
health/introspection surface it reports the current corpus size without
triggering re-indexing, so it returns the count together with the
untouched state. -/
def collection_size (st : BabyRAGSystemState) : Nat × BabyRAGSystemState :=
  (st.collection.docs.length, st)

/-- Modelled from the spec: the `vector_dimensions` accessor read by
`rag_api.py` (line 140) — absent from `src/rag_system.py`.  Per the spec
it reports the fixed dimensionality of the frozen dense encoder
(`all-MiniLM-L6-v2`, d = 384) without triggering re-indexing. -/
def vector_dimensions (st : BabyRAGSystemState) : Nat × BabyRAGSystemState :=
  (384, st)

/-- Modelled from the spec: the `get_snippets` snapshot read by
`rag_api.py` (line 149) — absent from `src/rag_system.py`.  Per the spec
`snapshot()` returns the full corpus with each entry's `content` replaced
by its canonical `searchable_text`, independent of any query and without
re-indexing. -/
def get_snippets (st : BabyRAGSystemState) :
    List Snippet × BabyRAGSystemState :=
  (st.snippets.map fun s =>
    { id := s.id, title := s.title, content := searchableText s }, st)

end BabyRAGSystem

/-- Python's `str.strip()` with no argument: removes whitespace from both
ends of the string. -/
def pyStrip (s : String) : String :=
  ⟨((s.data.dropWhile Char.isWhitespace).reverse.dropWhile
      Char.isWhitespace).reverse⟩

namespace RagMcpServer

/-- The successful payload of the `rag_query` MCP tool
(`rag_mcp_server.py` lines 308-312): the echoed question, the results,
and their count. -/
structure RagQueryResponse where
  question : String
  results : List QueryResult
  total_results : Nat
deriving Repr, DecidableEq

/-- `rag_query` (`rag_mcp_server.py` lines 296-312): raises `ValueError`
when the stripped question is empty, raises `ValueError` when `n_results`
is outside `1..10`, and otherwise forwards to `BabyRAGSystem.query` and
wraps its results. -/
def rag_query (question : String) (n_results : Int)
    (st : BabyRAGSystemState) (sims : List ℚ) :
    Except RagError RagQueryResponse :=
  if pyStrip question = "" then
    .error (.invalidQuery "question cannot be empty")
  else if ¬ (1 ≤ n_results ∧ n_results ≤ 10) then
    .error (.invalidQuery "n_results must be between 1 and 10")
  else
    let results := BabyRAGSystem.query st.collection sims n_results.toNat
    .ok { question := question
          results := results
          total_results := results.length }

end RagMcpServer

/-- Python's `round` on a value scaled to an integer: round half to even
(banker's rounding), as used by `round(x, 4)` in `rag_api.py`. -/
def roundHalfEven (x : ℚ) : ℤ :=
  let f := ⌊x⌋
  let frac := x - f
  if frac < 1 / 2 then f
  else if 1 / 2 < frac then f + 1
  else if f % 2 = 0 then f else f + 1

/-- `round(x, 4)` from `rag_api.py` lines 119-120: round to four decimal
places with Python's half-to-even tie rule. -/
def round4 (x : ℚ) : ℚ :=
  (roundHalfEven (x * 10000) : ℚ) / 10000

namespace RagApi

/-- The body of a successful `/query` response
(`rag_api.py` lines 46-49 and 125-129). -/
structure QueryResponse where
  question : String
  results : List QueryResult
  total_results : Nat
deriving Repr, DecidableEq

/-- The `/query` endpoint (`rag_api.py` lines 94-129): strips the
question and rejects it when empty (HTTP 400), rejects `n_results`
outside `1..10` (HTTP 400), then calls `BabyRAGSystem.query` and
re-emits each result with `similarity_score` and `distance` rounded to
four decimal places while `id`, `title` and `content` pass through
unchanged. -/
def query (question : String) (n_results : Int)
    (st : BabyRAGSystemState) (sims : List ℚ) :
    Except RagError QueryResponse :=
  let question := pyStrip question
  if question = "" then
    .error (.invalidQuery "Question cannot be empty")
  else if n_results < 1 ∨ 10 < n_results then
    .error (.invalidQuery "n_results must be between 1 and 10")
  else
    let results := BabyRAGSystem.query st.collection sims n_results.toNat
    let formatted := results.map fun r =>
      { id := r.id
        title := r.title
        content := r.content
        similarity_score := round4 r.similarity_score
        distance := round4 r.distance }
    .ok { question := question
          results := formatted
          total_results := formatted.length }

end RagApi

/-- A small concrete corpus used to exercise the definitions, in the
shape of `data/snippets.json` records. -/
def demoSnippets : List Snippet :=
  [{ id := "1", title := "ML", content := "Machine learning is a subset of AI." },
   { id := "2", title := "DB", content := "Databases store structured data." },
   { id := "3", title := "Py", content := "Python is a language." }]

/-- Placeholder record used as the `getD` default when indexing result
lists. -/
def noResult : QueryResult :=
  { id := "", title := "", content := "", similarity_score := 0, distance := 0 }

/-- The expected top result when `demoSnippets` is queried with
similarities `[1/2, 3/4, 1/2]`. -/
def demoTopResult : QueryResult :=
  { id := "2"
    title := "DB"
    content := "DB: Databases store structured data."
    similarity_score := 3/4
    distance := 1/4 }

/-! ### Properties of the stable ranking -/

theorem length_insertRanked (x : Nat × ℚ) (l : List (Nat × ℚ)) :
    (insertRanked x l).length = l.length + 1 := by
  induction l with
  | nil => rfl
  | cons y ys ih =>
      by_cases h : y.2 ≤ x.2 <;> simp [insertRanked, h, ih]

theorem length_rankAux (i : Nat) (ss : List ℚ) :
    (rankAux i ss).length = ss.length := by
  induction ss generalizing i with
  | nil => rfl
  | cons s ss ih => simp [rankAux, length_insertRanked, ih]

theorem mem_insertRanked {p x : Nat × ℚ} {l : List (Nat × ℚ)} :
    p ∈ insertRanked x l ↔ p = x ∨ p ∈ l := by
  induction l with
  | nil => simp [insertRanked]
  | cons y ys ih =>
      by_cases h : y.2 ≤ x.2
      · simp [insertRanked, h]
      · simp [insertRanked, h, ih]
        tauto

theorem mem_rankAux {p : Nat × ℚ} {i : Nat} {ss : List ℚ} :
    p ∈ rankAux i ss → ∃ j, ∃ h : j < ss.length, p = (i + j, ss.get ⟨j, h⟩) := by
  induction ss generalizing i with
  | nil => simp [rankAux]
  | cons s ss ih =>
      intro hp
      rw [rankAux, mem_insertRanked] at hp
      rcases hp with hp | hp
      · refine ⟨0, by simp, ?_⟩
        simpa using hp
      · obtain ⟨j, hj, rfl⟩ := ih hp
        refine ⟨j + 1, by simpa using hj, ?_⟩
        simp [Nat.add_assoc, Nat.add_comm 1 j]

theorem fst_bounds_of_mem_rankAux {p : Nat × ℚ} {i : Nat} {ss : List ℚ}
    (hp : p ∈ rankAux i ss) : i ≤ p.1 ∧ p.1 < i + ss.length := by
  obtain ⟨j, hj, rfl⟩ := mem_rankAux hp
  exact ⟨Nat.le_add_right _ _, by omega⟩

theorem snd_mem_of_mem_rankAux {p : Nat × ℚ} {i : Nat} {ss : List ℚ}
    (hp : p ∈ rankAux i ss) : p.2 ∈ ss := by
  obtain ⟨j, hj, rfl⟩ := mem_rankAux hp
  simp [List.getElem_mem hj]

theorem pairwise_insertRanked {x : Nat × ℚ} {l : List (Nat × ℚ)}
    (hx : ∀ y ∈ l, x.1 < y.1) (hl : l.Pairwise lexR) :
    (insertRanked x l).Pairwise lexR := by
  induction l with
  | nil => simp [insertRanked, List.pairwise_singleton]
  | cons y ys ih =>
      rw [List.pairwise_cons] at hl
      by_cases h : y.2 ≤ x.2
      · rw [insertRanked, if_pos h]
        refine List.Pairwise.cons ?_ (List.Pairwise.cons hl.1 hl.2)
        intro z hz
        rcases List.mem_cons.mp hz with rfl | hz
        · rcases lt_or_eq_of_le h with h | h
          · exact Or.inl h
          · exact Or.inr ⟨h.symm, hx _ (List.mem_cons_self _ _)⟩
        · have hzy : z.2 ≤ y.2 := by
            rcases hl.1 z hz with h1 | h1
            · exact le_of_lt h1
            · exact le_of_eq h1.1.symm
          rcases lt_or_eq_of_le (le_trans hzy h) with h1 | h1
          · exact Or.inl h1
          · exact Or.inr ⟨h1.symm, hx z (List.mem_cons_of_mem y hz)⟩
      · rw [insertRanked, if_neg h]
        refine List.Pairwise.cons ?_
          (ih (fun z hz => hx z (List.mem_cons_of_mem y hz)) hl.2)
        intro z hz
        rcases mem_insertRanked.mp hz with rfl | hz
        · exact Or.inl (lt_of_not_le h)
        · exact hl.1 z hz

theorem pairwise_rankAux (i : Nat) (ss : List ℚ) :
    (rankAux i ss).Pairwise lexR := by
  induction ss generalizing i with
  | nil => exact List.Pairwise.nil
  | cons s ss ih =>
      refine pairwise_insertRanked ?_ (ih (i + 1))
      intro y hy
      exact lt_of_lt_of_le (Nat.lt_succ_self i) (fst_bounds_of_mem_rankAux hy).1

theorem insertRanked_eq_cons {x : Nat × ℚ} {l : List (Nat × ℚ)}
    (h : ∀ y ∈ l, y.2 ≤ x.2) : insertRanked x l = x :: l := by
  cases l with
  | nil => rfl
  | cons y ys => rw [insertRanked, if_pos (h y (List.mem_cons_self y ys))]

theorem rankAux_replicate (i n : Nat) (c : ℚ) :
    rankAux i (List.replicate n c) = (List.range n).map fun j => (i + j, c) := by
  induction n generalizing i with
  | zero => rfl
  | succ n ih =>
      rw [List.replicate_succ, rankAux, ih (i + 1), insertRanked_eq_cons,
        List.range_succ_eq_map]
      · simp only [List.map_cons, List.map_map, Nat.add_zero]
        refine congrArg (List.cons _) ?_
        apply List.map_congr_left
        intro j hj
        simp only [Function.comp_apply]
        exact Prod.ext (by omega) rfl
      · intro y hy
        obtain ⟨j, hj, rfl⟩ := by simpa using hy
        exact le_refl c

/-! ### The shape of the formatted query output -/

theorem query_eq (c : Collection) (sims : List ℚ) (k : Nat) :
    BabyRAGSystem.query c sims k =
      ((rankAux 0 sims).take (min k c.docs.length)).map fun p =>
        { id := c.ids.getD p.1 ""
          title := c.titles.getD p.1 ""
          content := c.docs.getD p.1 ""
          similarity_score := 1 - (1 - p.2)
          distance := 1 - p.2 } := by
  apply List.ext_getElem
  · simp [BabyRAGSystem.query, Collection.query]
  · intro i h1 h2
    simp only [BabyRAGSystem.query, Collection.query, List.getElem_map,
      List.getElem_range]
    have hlen : i < ((rankAux 0 sims).take (min k c.docs.length)).length := by
      simpa [BabyRAGSystem.query, Collection.query] using h1
    rw [List.getD_eq_getElem _ _ (by simpa using hlen),
      List.getD_eq_getElem _ _ (by simpa using hlen),
      List.getD_eq_getElem _ _ (by simpa using hlen),
      List.getD_eq_getElem _ _ (by simpa using hlen)]
    simp

theorem getD_map_eq {α β : Type} (f : α → β) (l : List α) (j : Nat)
    (hj : j < l.length) (d : β) : (l.map f).getD j d = f (l.get ⟨j, hj⟩) := by
  rw [List.getD_eq_getElem _ _ (by simpa using hj)]
  simp

/-! ### Claim theorems -/

/-- Claim C1: for every corpus of size `n ≥ 1` and every `k ≥ 1`,
`query(text, k)` returns a list of exactly `min k n` results: an
over-large `k` is clamped to `n`, the call does not error and the output
is never padded. -/
theorem query_returns_min_k_n (snippets : List Snippet) (sims : List ℚ)
    (k : Nat) (hsims : sims.length = snippets.length)
    (_hn : 1 ≤ snippets.length) (_hk : 1 ≤ k) :
    (BabyRAGSystem.query (addSnippetsToCollection snippets) sims k).length
      = min k snippets.length := by
  rw [query_eq]
  simp only [List.length_map, List.length_take, length_rankAux,
    addSnippetsToCollection, hsims]
  omega

/-- Witness for C1: a three-document corpus queried with `k = 5` yields
exactly `min 5 3 = 3` results. -/
theorem query_returns_min_k_n_witness :
    1 ≤ demoSnippets.length ∧ 1 ≤ 5 ∧
    (BabyRAGSystem.query (addSnippetsToCollection demoSnippets)
        [1/2, 3/4, 1/2] 5).length = min 5 demoSnippets.length :=
  ⟨by norm_num [demoSnippets], by norm_num,
    query_returns_min_k_n demoSnippets [1/2, 3/4, 1/2] 5
      (by norm_num [demoSnippets]) (by norm_num [demoSnippets]) (by norm_num)⟩

/-- Claim C2: for every record returned by `query`, the `distance` field
equals `1 - similarity_score` exactly. -/
theorem distance_eq_one_sub_similarity (c : Collection) (sims : List ℚ)
    (k : Nat) (r : QueryResult)
    (hr : r ∈ BabyRAGSystem.query c sims k) :
    r.distance = 1 - r.similarity_score := by
  rw [query_eq] at hr
  obtain ⟨p, hp, rfl⟩ := List.mem_map.mp hr
  simp only
  ring

/-- Witness for C2: the top result of a concrete query has
`distance = 1/4 = 1 - 3/4 = 1 - similarity_score`. -/
theorem distance_eq_one_sub_similarity_witness :
    demoTopResult ∈
      BabyRAGSystem.query (addSnippetsToCollection demoSnippets)
        [1/2, 3/4, 1/2] 1 ∧
    demoTopResult.distance = 1 - demoTopResult.similarity_score :=
  have hmem : demoTopResult ∈
      BabyRAGSystem.query (addSnippetsToCollection demoSnippets)
        [1/2, 3/4, 1/2] 1 := by
    norm_num [BabyRAGSystem.query, Collection.query, rankAux, insertRanked,
      addSnippetsToCollection, demoSnippets, searchableText, demoTopResult]
    rfl
  ⟨hmem, distance_eq_one_sub_similarity _ _ _ _ hmem⟩

/-- Claim C3: the list returned by `query` is ordered highest similarity
first — for positions `i < j`, the similarity at `j` is at most the
similarity at `i`. -/
theorem similarity_nonincreasing (c : Collection) (sims : List ℚ) (k : Nat)
    (i j : Nat) (hij : i < j)
    (hj : j < (BabyRAGSystem.query c sims k).length) :
    ((BabyRAGSystem.query c sims k).getD j noResult).similarity_score ≤
      ((BabyRAGSystem.query c sims k).getD i noResult).similarity_score := by
  have hpw : (BabyRAGSystem.query c sims k).Pairwise
      (fun a b => b.similarity_score ≤ a.similarity_score) := by
    rw [query_eq]
    refine List.Pairwise.map _ ?_
      (List.Pairwise.sublist (List.take_sublist _ _) (pairwise_rankAux 0 sims))
    intro a b hab
    simp only
    rcases hab with hab | hab
    · linarith
    · linarith [hab.1.le]
  have hi : i < (BabyRAGSystem.query c sims k).length := lt_trans hij hj
  rw [List.getD_eq_getElem _ _ hj, List.getD_eq_getElem _ _ hi]
  exact List.pairwise_iff_getElem.mp hpw i j hi hj hij

/-- Witness for C3: in a concrete three-result query the second result
scores no higher than the first. -/
theorem similarity_nonincreasing_witness :
    (0 : Nat) < 1 ∧
    1 < (BabyRAGSystem.query (addSnippetsToCollection demoSnippets)
          [1/2, 3/4, 1/2] 3).length ∧
    ((BabyRAGSystem.query (addSnippetsToCollection demoSnippets)
        [1/2, 3/4, 1/2] 3).getD 1 noResult).similarity_score ≤
      ((BabyRAGSystem.query (addSnippetsToCollection demoSnippets)
          [1/2, 3/4, 1/2] 3).getD 0 noResult).similarity_score :=
  have hj : 1 < (BabyRAGSystem.query (addSnippetsToCollection demoSnippets)
      [1/2, 3/4, 1/2] 3).length := by
    norm_num [BabyRAGSystem.query, Collection.query, rankAux, insertRanked,
      addSnippetsToCollection, demoSnippets, searchableText]
  ⟨Nat.zero_lt_one, hj,
    similarity_nonincreasing _ _ 3 0 1 Nat.zero_lt_one hj⟩

/-- Claim C4: every result returned by `query` carries as `content` the
canonical searchable text of the matched document — the title-prefixed
concatenation `title ++ ": " ++ content` of the source record, not the
raw stored content field. -/
theorem content_is_searchable_text (snippets : List Snippet) (sims : List ℚ)
    (k : Nat) (r : QueryResult) (hsims : sims.length = snippets.length)
    (hr : r ∈ BabyRAGSystem.query (addSnippetsToCollection snippets) sims k) :
    ∃ s, s ∈ snippets ∧ r.id = s.id ∧ r.title = s.title ∧
      r.content = searchableText s := by
  rw [query_eq] at hr
  obtain ⟨p, hp, rfl⟩ := List.mem_map.mp hr
  obtain ⟨j, hj, rfl⟩ := mem_rankAux (List.take_subset _ _ hp)
  have hjs : j < snippets.length := hsims ▸ hj
  refine ⟨snippets.get ⟨j, hjs⟩, List.get_mem snippets j hjs, ?_, ?_, ?_⟩
  · show (addSnippetsToCollection snippets).ids.getD (0 + j) "" = _
    rw [Nat.zero_add]
    exact getD_map_eq Snippet.id snippets j hjs ""
  · show (addSnippetsToCollection snippets).titles.getD (0 + j) "" = _
    rw [Nat.zero_add]
    exact getD_map_eq Snippet.title snippets j hjs ""
  · show (addSnippetsToCollection snippets).docs.getD (0 + j) "" = _
    rw [Nat.zero_add]
    exact getD_map_eq searchableText snippets j hjs ""

/-- Witness for C4: the top result of a concrete query reports the
title-prefixed text of snippet "2" as its content. -/
theorem content_is_searchable_text_witness :
    ([(1:ℚ)/2, 3/4, 1/2].length = demoSnippets.length) ∧
    ∃ s, s ∈ demoSnippets ∧ demoTopResult.id = s.id ∧
      demoTopResult.title = s.title ∧
      demoTopResult.content = searchableText s :=
  have hmem : demoTopResult ∈
      BabyRAGSystem.query (addSnippetsToCollection demoSnippets)
        [1/2, 3/4, 1/2] 1 := by
    norm_num [BabyRAGSystem.query, Collection.query, rankAux, insertRanked,
      addSnippetsToCollection, demoSnippets, searchableText, demoTopResult]
    rfl
  ⟨by norm_num [demoSnippets],
    content_is_searchable_text demoSnippets [1/2, 3/4, 1/2] 1 demoTopResult
      (by norm_num [demoSnippets]) hmem⟩

/-- Claim C5: similarity scores of returned results lie in `[0, 1]`: the
formatting pipeline keeps every per-document similarity unchanged, and the
cosine similarity of non-negative vectors lies in `[0, 1]`. -/
theorem similarity_in_unit_interval :
    (∀ (snippets : List Snippet) (sims : List ℚ) (k : Nat),
        (∀ s ∈ sims, 0 ≤ s ∧ s ≤ 1) →
        ∀ r ∈ BabyRAGSystem.query (addSnippetsToCollection snippets) sims k,
          0 ≤ r.similarity_score ∧ r.similarity_score ≤ 1)
    ∧ ∀ (d : Nat) (q v : Fin d → ℝ), (∀ i, 0 ≤ q i) → (∀ i, 0 ≤ v i) →
        0 ≤ cosineSim q v ∧ cosineSim q v ≤ 1 := by
  constructor
  · intro snippets sims k hb r hr
    rw [query_eq] at hr
    obtain ⟨p, hp, rfl⟩ := List.mem_map.mp hr
    have hmem : p.2 ∈ sims :=
      snd_mem_of_mem_rankAux (List.take_subset _ _ hp)
    have hs := hb p.2 hmem
    constructor
    · show (0:ℚ) ≤ 1 - (1 - p.2)
      linarith [hs.1]
    · show (1:ℚ) - (1 - p.2) ≤ 1
      linarith [hs.2]
  · intro d q v hq hv
    have hN : 0 ≤ ∑ i, q i * v i :=
      Finset.sum_nonneg fun i _ => mul_nonneg (hq i) (hv i)
    have hden : 0 ≤ Real.sqrt (∑ i, q i ^ 2) * Real.sqrt (∑ i, v i ^ 2) :=
      mul_nonneg (Real.sqrt_nonneg _) (Real.sqrt_nonneg _)
    constructor
    · exact div_nonneg hN hden
    · rcases eq_or_lt_of_le hden with h0 | hpos
      · rw [cosineSim, ← h0, div_zero]
        exact zero_le_one
      · rw [cosineSim, div_le_one hpos]
        exact Real.sum_mul_le_sqrt_mul_sqrt Finset.univ q v

/-- Witness for C5: a concrete query with per-document similarities in
the unit interval yields a top score in the unit interval, and the cosine
similarity of the all-ones one-dimensional vectors lies in the unit
interval. -/
theorem similarity_in_unit_interval_witness :
    (0 ≤ demoTopResult.similarity_score ∧ demoTopResult.similarity_score ≤ 1)
    ∧ (0 ≤ cosineSim (fun _ : Fin 1 => (1:ℝ)) (fun _ => 1)
        ∧ cosineSim (fun _ : Fin 1 => (1:ℝ)) (fun _ => 1) ≤ 1) :=
  have hmem : demoTopResult ∈
      BabyRAGSystem.query (addSnippetsToCollection demoSnippets)
        [1/2, 3/4, 1/2] 1 := by
    norm_num [BabyRAGSystem.query, Collection.query, rankAux, insertRanked,
      addSnippetsToCollection, demoSnippets, searchableText, demoTopResult]
    rfl
  ⟨similarity_in_unit_interval.1 demoSnippets [1/2, 3/4, 1/2] 1
      (by norm_num) demoTopResult hmem,
    similarity_in_unit_interval.2 1 _ _ (fun _ => zero_le_one)
      (fun _ => zero_le_one)⟩

/-- Claim C7: ranking is a stable sort on (descending similarity, corpus
index): among ranked entries with equal similarity the lower corpus index
comes first, and a query scoring equally against every document returns
results in corpus insertion order. -/
theorem ranking_stable_tiebreak :
    (∀ (sims : List ℚ) (i j : Nat), i < j → j < (rankAux 0 sims).length →
        ((rankAux 0 sims).getD i (0, 0)).2 = ((rankAux 0 sims).getD j (0, 0)).2 →
        ((rankAux 0 sims).getD i (0, 0)).1 < ((rankAux 0 sims).getD j (0, 0)).1)
    ∧ ∀ (snippets : List Snippet) (c : ℚ) (k : Nat),
        (BabyRAGSystem.query (addSnippetsToCollection snippets)
            (List.replicate snippets.length c) k).map QueryResult.id =
          (snippets.map Snippet.id).take (min k snippets.length) := by
  constructor
  · intro sims i j hij hj heq
    have hi : i < (rankAux 0 sims).length := lt_trans hij hj
    rw [List.getD_eq_getElem _ _ hi, List.getD_eq_getElem _ _ hj] at heq ⊢
    have hlex := List.pairwise_iff_getElem.mp (pairwise_rankAux 0 sims) i j hi hj hij
    rcases hlex with h | h
    · exact absurd heq (ne_of_gt h)
    · exact h.2
  · intro snippets c k
    rw [query_eq]
    have hdocs : (addSnippetsToCollection snippets).docs.length
        = snippets.length := by
      simp [addSnippetsToCollection]
    rw [hdocs, rankAux_replicate]
    apply List.ext_getElem
    · simp only [List.length_map, List.length_take, List.length_range,
        List.length_replicate]
    · intro i h1 h2
      have hi : i < min k snippets.length := by
        simpa using h2
      have his : i < snippets.length := lt_of_lt_of_le hi (Nat.min_le_right _ _)
      simp only [List.getElem_map, List.getElem_take, List.getElem_range]
      show (addSnippetsToCollection snippets).ids.getD (0 + i) "" = _
      rw [Nat.zero_add]
      exact getD_map_eq Snippet.id snippets i his ""

/-- Witness for C7: with similarities `[1/2, 3/4, 1/2]` the two tied
entries keep corpus order (index 0 before index 2), and an all-equal
query returns the demo corpus in insertion order. -/
theorem ranking_stable_tiebreak_witness :
    ((1:Nat) < 2 ∧ 2 < (rankAux 0 [1/2, 3/4, 1/2]).length ∧
      ((rankAux 0 [1/2, 3/4, 1/2]).getD 1 (0, 0)).2 =
        ((rankAux 0 [1/2, 3/4, 1/2]).getD 2 (0, 0)).2 ∧
      ((rankAux 0 [1/2, 3/4, 1/2]).getD 1 (0, 0)).1 <
        ((rankAux 0 [1/2, 3/4, 1/2]).getD 2 (0, 0)).1)
    ∧ (BabyRAGSystem.query (addSnippetsToCollection demoSnippets)
          (List.replicate demoSnippets.length (1/2)) 2).map QueryResult.id =
        (demoSnippets.map Snippet.id).take (min 2 demoSnippets.length) :=
  have hlen : 2 < (rankAux 0 [1/2, 3/4, 1/2]).length := by
    norm_num [rankAux, insertRanked]
  have heq : ((rankAux 0 [1/2, 3/4, 1/2]).getD 1 (0, 0)).2 =
      ((rankAux 0 [1/2, 3/4, 1/2]).getD 2 (0, 0)).2 := by
    norm_num [rankAux, insertRanked]
  ⟨⟨by norm_num, hlen, heq,
      ranking_stable_tiebreak.1 [1/2, 3/4, 1/2] 1 2 (by norm_num) hlen heq⟩,
    ranking_stable_tiebreak.2 demoSnippets (1/2) 2⟩

/-- Claim C6: a query whose text is empty or whitespace-only after
stripping, or whose `n_results` lies outside the configured bound 1..10,
is rejected immediately with a typed invalid-query error: no result list
is ever returned for it. -/
theorem invalid_query_rejected (question : String) (k : Int)
    (st : BabyRAGSystemState) (sims : List ℚ)
    (h : pyStrip question = "" ∨ ¬ (1 ≤ k ∧ k ≤ 10)) :
    (∃ msg, RagMcpServer.rag_query question k st sims =
        Except.error (RagError.invalidQuery msg)) ∧
    ∀ resp, RagMcpServer.rag_query question k st sims ≠ Except.ok resp := by
  have hmain : ∃ msg, RagMcpServer.rag_query question k st sims =
      Except.error (RagError.invalidQuery msg) := by
    by_cases hq : pyStrip question = ""
    · exact ⟨"question cannot be empty",
        by rw [RagMcpServer.rag_query, if_pos hq]⟩
    · rcases h with h | h
      · exact absurd h hq
      · exact ⟨"n_results must be between 1 and 10",
          by rw [RagMcpServer.rag_query, if_neg hq, if_pos h]⟩
  obtain ⟨msg, hmsg⟩ := hmain
  refine ⟨⟨msg, hmsg⟩, fun resp hok => ?_⟩
  rw [hmsg] at hok
  exact Except.noConfusion hok

/-- Witness for C6: the whitespace-only question `"   "` with
`n_results = 3` is rejected with the typed error. -/
theorem invalid_query_rejected_witness :
    (pyStrip "   " = "" ∨ ¬ ((1:Int) ≤ 3 ∧ (3:Int) ≤ 10)) ∧
    (∃ msg, RagMcpServer.rag_query "   " 3
        ⟨demoSnippets, addSnippetsToCollection demoSnippets⟩ [1/2, 3/4, 1/2] =
      Except.error (RagError.invalidQuery msg)) ∧
    ∀ resp, RagMcpServer.rag_query "   " 3
        ⟨demoSnippets, addSnippetsToCollection demoSnippets⟩ [1/2, 3/4, 1/2] ≠
      Except.ok resp :=
  ⟨Or.inl rfl,
    invalid_query_rejected "   " 3
      ⟨demoSnippets, addSnippetsToCollection demoSnippets⟩ [1/2, 3/4, 1/2]
      (Or.inl rfl)⟩

/-- Claim C8: a missing or malformed corpus source makes construction
fail with the corresponding corpus-load error, and no system state — so
no partial index — is ever produced. -/
theorem corpus_load_error_aborts (src : CorpusSource)
    (h : src = CorpusSource.missing ∨ src = CorpusSource.malformed) :
    (initSystem src = Except.error RagError.fileNotFound ∨
      initSystem src = Except.error RagError.jsonDecodeError) ∧
    ∀ st, initSystem src ≠ Except.ok st := by
  rcases h with rfl | rfl
  · exact ⟨Or.inl rfl, fun st hok => Except.noConfusion hok⟩
  · exact ⟨Or.inr rfl, fun st hok => Except.noConfusion hok⟩

/-- Witness for C8: the missing corpus file aborts construction with
`fileNotFound` and yields no state. -/
theorem corpus_load_error_aborts_witness :
    (CorpusSource.missing = CorpusSource.missing ∨
      CorpusSource.missing = CorpusSource.malformed) ∧
    (initSystem CorpusSource.missing = Except.error RagError.fileNotFound ∨
      initSystem CorpusSource.missing = Except.error RagError.jsonDecodeError) ∧
    ∀ st, initSystem CorpusSource.missing ≠ Except.ok st :=
  ⟨Or.inl rfl, corpus_load_error_aborts CorpusSource.missing (Or.inl rfl)⟩

/-- Claim C9: on every initialized system the introspection surface
succeeds without re-indexing — corpus size, vector dimensionality and the
snapshot leave the state untouched, and the snapshot returns the full
corpus with each entry's content replaced by its canonical searchable
text. -/
theorem introspection_surface (snippets : List Snippet)
    (st : BabyRAGSystemState)
    (h : initSystem (CorpusSource.ok snippets) = Except.ok st) :
    (BabyRAGSystem.collection_size st).1 = snippets.length ∧
    (BabyRAGSystem.collection_size st).2 = st ∧
    (BabyRAGSystem.vector_dimensions st).2 = st ∧
    (BabyRAGSystem.get_snippets st).2 = st ∧
    (BabyRAGSystem.get_snippets st).1 =
      snippets.map fun s =>
        { id := s.id, title := s.title, content := searchableText s } := by
  have hst : st = ⟨snippets, addSnippetsToCollection snippets⟩ := by
    rw [initSystem, loadData, Except.ok.injEq] at h
    exact h.symm
  subst hst
  refine ⟨?_, rfl, rfl, rfl, rfl⟩
  simp [BabyRAGSystem.collection_size, addSnippetsToCollection]

/-- Witness for C9: the demo corpus initializes, reports size 3, and its
snapshot carries the title-prefixed texts. -/
theorem introspection_surface_witness :
    initSystem (CorpusSource.ok demoSnippets) =
      Except.ok ⟨demoSnippets, addSnippetsToCollection demoSnippets⟩ ∧
    (BabyRAGSystem.collection_size
        ⟨demoSnippets, addSnippetsToCollection demoSnippets⟩).1 =
      demoSnippets.length ∧
    (BabyRAGSystem.get_snippets
        ⟨demoSnippets, addSnippetsToCollection demoSnippets⟩).1 =
      demoSnippets.map fun s =>
        { id := s.id, title := s.title, content := searchableText s } :=
  have h : initSystem (CorpusSource.ok demoSnippets) =
      Except.ok ⟨demoSnippets, addSnippetsToCollection demoSnippets⟩ := rfl
  ⟨h, (introspection_surface demoSnippets _ h).1,
    (introspection_surface demoSnippets _ h).2.2.2.2⟩


/-- Claim C10: every successful response of the HTTP `/query` endpoint
carries, per result, `similarity_score` and `distance` rounded to four
decimal places of the core query's values while `id`, `title` and
`content` pass through unchanged. -/
theorem api_rounds_scores (question : String) (k : Int)
    (st : BabyRAGSystemState) (sims : List ℚ) (resp : RagApi.QueryResponse)
    (h : RagApi.query question k st sims = Except.ok resp) :
    resp.results.length =
      (BabyRAGSystem.query st.collection sims k.toNat).length ∧
    ∀ i, i < resp.results.length →
      (resp.results.getD i noResult).id =
        ((BabyRAGSystem.query st.collection sims k.toNat).getD i noResult).id ∧
      (resp.results.getD i noResult).title =
        ((BabyRAGSystem.query st.collection sims k.toNat).getD i noResult).title ∧
      (resp.results.getD i noResult).content =
        ((BabyRAGSystem.query st.collection sims k.toNat).getD i noResult).content ∧
      (resp.results.getD i noResult).similarity_score =
        round4 ((BabyRAGSystem.query st.collection sims
          k.toNat).getD i noResult).similarity_score ∧
      (resp.results.getD i noResult).distance =
        round4 ((BabyRAGSystem.query st.collection sims
          k.toNat).getD i noResult).distance := by
  rw [RagApi.query] at h
  split_ifs at h with h1 h2
  rw [Except.ok.injEq] at h
  have hres : resp.results =
      (BabyRAGSystem.query st.collection sims k.toNat).map fun r =>
        ({ id := r.id, title := r.title, content := r.content,
           similarity_score := round4 r.similarity_score,
           distance := round4 r.distance } : QueryResult) := by
    rw [← h]
  rw [hres]
  refine ⟨List.length_map _ _, ?_⟩
  intro i hi
  have hi2 : i < (BabyRAGSystem.query st.collection sims k.toNat).length := by
    simpa using hi
  rw [getD_map_eq _ _ i hi2 noResult, List.getD_eq_getElem _ _ hi2]
  simp [List.get_eq_getElem]

/-- Witness for C10: a concrete API call succeeds and its response has as
many results as the core query. -/
theorem api_rounds_scores_witness :
    ∃ resp, RagApi.query " hi " 1
        ⟨demoSnippets, addSnippetsToCollection demoSnippets⟩ [1/2, 3/4, 1/2] =
      Except.ok resp ∧
      resp.results.length =
        (BabyRAGSystem.query
          (⟨demoSnippets, addSnippetsToCollection demoSnippets⟩ :
            BabyRAGSystemState).collection
          [1/2, 3/4, 1/2] (Int.toNat 1)).length :=
  ⟨_, rfl, (api_rounds_scores " hi " 1
    ⟨demoSnippets, addSnippetsToCollection demoSnippets⟩ [1/2, 3/4, 1/2] _ rfl).1⟩
